import Mathlib

/-!
Shallow embedding of the Spilno news bot (`src/app.py`): the fingerprint
store, the GNews client, the rewriter validation, the keyword extractor,
the HTML→Telegram converter, and the publish pipelines (scheduled
`AutoPublishScheduler.auto_publish_task` and the manual `publish_handler`),
together with theorems settling the specification claims.

Python strings are modelled as Lean `String`/`List Char` (both count code
points, matching Python `len`). Machine integers in MD5 are `Nat` reduced
mod 2^32 explicitly.
-/

namespace NewsBot

/-- Whitespace characters recognised by Python `str.split()` / `str.strip()`. -/
def isPySpace (c : Char) : Bool :=
  c = ' ' || c = '\t' || c = '\n' || c = '\r' || c = Char.ofNat 11 || c = Char.ofNat 12

/-- Python `str.lower()` restricted to the character ranges the program
feeds it (ASCII letters and the Cyrillic letters of Ukrainian/Russian
titles): A–Z, А–Я (U+0410–U+042F), Ё, and the Ukrainian letters Є І Ї Ґ. -/
def pyLowerChar (c : Char) : Char :=
  let n := c.toNat
  if 65 ≤ n ∧ n ≤ 90 then Char.ofNat (n + 32)
  else if 1040 ≤ n ∧ n ≤ 1071 then Char.ofNat (n + 32)
  else if n = 1025 then Char.ofNat 1105
  else if n = 1028 then Char.ofNat 1108
  else if n = 1030 then Char.ofNat 1110
  else if n = 1031 then Char.ofNat 1111
  else if n = 1168 then Char.ofNat 1169
  else c

/-- Python `str.lower()` on a whole string. -/
def pyLower (s : String) : String := String.mk (s.data.map pyLowerChar)

/-- Drop leading whitespace (`str.lstrip()`). -/
def dropLeadSpace : List Char → List Char
  | [] => []
  | c :: cs => if isPySpace c then dropLeadSpace cs else c :: cs

/-- Python `str.strip()` on a character list. -/
def pyStripL (cs : List Char) : List Char :=
  dropLeadSpace (dropLeadSpace cs.reverse).reverse

/-- Python `str.strip()`. -/
def pyStrip (s : String) : String := String.mk (pyStripL s.data)

/-- Split on runs of whitespace, discarding empty tokens
(Python `str.split()` with no argument). -/
def pySplitAux : List Char → List Char → List (List Char)
  | [], acc => if acc = [] then [] else [acc.reverse]
  | c :: cs, acc =>
      if isPySpace c then
        if acc = [] then pySplitAux cs [] else acc.reverse :: pySplitAux cs []
      else pySplitAux cs (c :: acc)

/-- Python `str.split()` with no argument. -/
def pySplit (cs : List Char) : List (List Char) := pySplitAux cs []

/-- Join tokens with single spaces (Python `' '.join(...)`). -/
def joinSpace : List (List Char) → List Char
  | [] => []
  | [w] => w
  | w :: ws => w ++ ' ' :: joinSpace ws

/-- UTF-8 encoding of one code point (Python `str.encode()`), as byte values. -/
def utf8Char (c : Char) : List Nat :=
  let n := c.toNat
  if n < 128 then [n]
  else if n < 2048 then [192 + n / 64, 128 + n % 64]
  else if n < 65536 then [224 + n / 4096, 128 + (n / 64) % 64, 128 + n % 64]
  else [240 + n / 262144, 128 + (n / 4096) % 64, 128 + (n / 64) % 64, 128 + n % 64]

/-- UTF-8 encoding of a string as a list of byte values. -/
def utf8Encode (s : String) : List Nat := s.data.flatMap utf8Char

/-! ### MD5 (`hashlib.md5`), RFC 1321, over byte lists -/

/-- Reduce mod 2^32. -/
def m32 (n : Nat) : Nat := n % 4294967296

/-- 32-bit left rotate. -/
def rotl32 (x s : Nat) : Nat := m32 (x <<< s) ||| (x >>> (32 - s))

/-- Per-round sine-derived constants (RFC 1321 T table). -/
def md5K : List Nat :=
  [0xd76aa478, 0xe8c7b756, 0x242070db, 0xc1bdceee,
   0xf57c0faf, 0x4787c62a, 0xa8304613, 0xfd469501,
   0x698098d8, 0x8b44f7af, 0xffff5bb1, 0x895cd7be,
   0x6b901122, 0xfd987193, 0xa679438e, 0x49b40821,
   0xf61e2562, 0xc040b340, 0x265e5a51, 0xe9b6c7aa,
   0xd62f105d, 0x02441453, 0xd8a1e681, 0xe7d3fbc8,
   0x21e1cde6, 0xc33707d6, 0xf4d50d87, 0x455a14ed,
   0xa9e3e905, 0xfcefa3f8, 0x676f02d9, 0x8d2a4c8a,
   0xfffa3942, 0x8771f681, 0x6d9d6122, 0xfde5380c,
   0xa4beea44, 0x4bdecfa9, 0xf6bb4b60, 0xbebfbc70,
   0x289b7ec6, 0xeaa127fa, 0xd4ef3085, 0x04881d05,
   0xd9d4d039, 0xe6db99e5, 0x1fa27cf8, 0xc4ac5665,
   0xf4292244, 0x432aff97, 0xab9423a7, 0xfc93a039,
   0x655b59c3, 0x8f0ccc92, 0xffeff47d, 0x85845dd1,
   0x6fa87e4f, 0xfe2ce6e0, 0xa3014314, 0x4e0811a1,
   0xf7537e82, 0xbd3af235, 0x2ad7d2bb, 0xeb86d391]

/-- Per-round left-rotation amounts. -/
def md5S : List Nat :=
  [7, 12, 17, 22, 7, 12, 17, 22, 7, 12, 17, 22, 7, 12, 17, 22,
   5, 9, 14, 20, 5, 9, 14, 20, 5, 9, 14, 20, 5, 9, 14, 20,
   4, 11, 16, 23, 4, 11, 16, 23, 4, 11, 16, 23, 4, 11, 16, 23,
   6, 10, 15, 21, 6, 10, 15, 21, 6, 10, 15, 21, 6, 10, 15, 21]

/-- One MD5 round: nonlinear function, message index, state rotation. -/
def md5Round (M : List Nat) (st : Nat × Nat × Nat × Nat) (i : Nat) :
    Nat × Nat × Nat × Nat :=
  let (a, b, c, d) := st
  let f :=
    if i < 16 then (b &&& c) ||| ((b ^^^ 0xffffffff) &&& d)
    else if i < 32 then (d &&& b) ||| ((d ^^^ 0xffffffff) &&& c)
    else if i < 48 then b ^^^ c ^^^ d
    else c ^^^ (b ||| (d ^^^ 0xffffffff))
  let g :=
    if i < 16 then i
    else if i < 32 then (5 * i + 1) % 16
    else if i < 48 then (3 * i + 5) % 16
    else (7 * i) % 16
  let tmp := m32 (f + a + md5K.getD i 0 + M.getD g 0)
  (d, m32 (b + rotl32 tmp (md5S.getD i 0)), b, c)

/-- Decode one 64-byte block into sixteen little-endian 32-bit words. -/
def md5Words (block : List Nat) : List Nat :=
  (List.range 16).map fun j =>
    block.getD (4 * j) 0 + 256 * block.getD (4 * j + 1) 0 +
      65536 * block.getD (4 * j + 2) 0 + 16777216 * block.getD (4 * j + 3) 0

/-- Process one 64-byte block. -/
def md5Block (st : Nat × Nat × Nat × Nat) (block : List Nat) :
    Nat × Nat × Nat × Nat :=
  let M := md5Words block
  let (a, b, c, d) := (List.range 64).foldl (md5Round M) st
  let (a0, b0, c0, d0) := st
  (m32 (a0 + a), m32 (b0 + b), m32 (c0 + c), m32 (d0 + d))

/-- Process a padded message in 64-byte blocks (fuel bounds the recursion;
callers pass the list length, more than enough for `length / 64` blocks). -/
def md5Blocks : Nat → Nat × Nat × Nat × Nat → List Nat → Nat × Nat × Nat × Nat
  | 0, st, _ => st
  | _ + 1, st, [] => st
  | fuel + 1, st, bs => md5Blocks fuel (md5Block st (bs.take 64)) (bs.drop 64)

/-- RFC 1321 padding: `0x80`, zeros to 56 mod 64, then the bit length
as eight little-endian bytes. -/
def md5Pad (msg : List Nat) : List Nat :=
  let bitLen := (8 * msg.length) % (2 ^ 64)
  let zeros := (119 - (msg.length % 64)) % 64
  msg ++ 128 :: List.replicate zeros 0 ++
    (List.range 8).map fun j => (bitLen >>> (8 * j)) % 256

/-- The 16 digest bytes of a byte message. -/
def md5Digest (msg : List Nat) : List Nat :=
  let padded := md5Pad msg
  let (a, b, c, d) :=
    md5Blocks padded.length (0x67452301, 0xefcdab89, 0x98badcfe, 0x10325476) padded
  ([a, b, c, d]).flatMap fun w => (List.range 4).map fun j => (w >>> (8 * j)) % 256

/-- One lowercase hex digit. -/
def hexDigit (n : Nat) : Char :=
  if n < 10 then Char.ofNat (48 + n) else Char.ofNat (87 + n)

/-- Model of `hexdigest()`: the digest bytes as a 32-character lowercase hex string. -/
def md5Hex (msg : List Nat) : String :=
  String.mk (md5Digest msg |>.flatMap fun b => [hexDigit (b / 16), hexDigit (b % 16)])

/-! ### Fingerprint store (`Database.add_article_fingerprint` / `check_duplicate`)

`title_hash = hashlib.md5(title.lower().encode()).hexdigest()`; rows live in
`article_fingerprints (title_hash UNIQUE, original_title)` and the insert is
`ON CONFLICT (title_hash) DO NOTHING`. -/

/-- The digest key used for deduplication. -/
def title_hash (title : String) : String := md5Hex (utf8Encode (pyLower title))

/-- One row of `article_fingerprints`. -/
structure FingerprintRow where
  hash : String
  original_title : String
deriving DecidableEq, Repr

/-- Model of `Database.add_article_fingerprint`: insert, `ON CONFLICT DO NOTHING`. -/
def add_article_fingerprint (store : List FingerprintRow) (title : String) :
    List FingerprintRow :=
  let h := title_hash title
  if store.any fun r => r.hash = h then store
  else store ++ [⟨h, title⟩]

/-- Model of `Database.check_duplicate`: does a row with this title's hash exist. -/
def check_duplicate (store : List FingerprintRow) (title : String) : Bool :=
  store.any fun r => r.hash = title_hash title

/-! ### Keyword extraction (`extract_keywords_from_title`) and query
sanitisation (`GNewsService._sanitize_query`) -/

/-- The character class `[,"\':;!?\(\)\[\]\{\}<>/\\|@#$%^&*=+~]` shared by
`extract_keywords_from_title` and `_sanitize_query`. -/
def specialChars : List Char :=
  [',', Char.ofNat 34, Char.ofNat 39, ':', ';', '!', '?', '(', ')',
   '[', ']', Char.ofNat 123, Char.ofNat 125, '<', '>', '/', Char.ofNat 92,
   '|', '@', '#', '$', '%', '^', '&', '*', '=', '+', '~']

/-- Model of `re.sub(special_chars, ' ', s)`: each listed character becomes a space. -/
def blankSpecial (cs : List Char) : List Char :=
  cs.map fun c => if specialChars.contains c then ' ' else c

/-- Model of `extract_keywords_from_title(title, max_words)`: blank out special
characters, split on whitespace, drop tokens of length ≤ 2, join the first
`max_words` tokens; fall back to `"Україна"` when the title is empty or the
result is empty / shorter than 3 characters. -/
def extract_keywords_from_title (title : String) (maxWords : Nat) : String :=
  if title = "" then "Україна"
  else
    let cleaned := blankSpecial title.data
    let words := (pySplit cleaned).filter fun w => w.length > 2
    let keywords := joinSpace (words.take maxWords)
    if keywords = [] ∨ (pyStripL keywords).length < 3 then "Україна"
    else String.mk (pyStripL keywords)

/-- Model of `GNewsService._sanitize_query(query)`: blank special characters,
collapse whitespace, cap at 10 words when over 100 characters, fall back to
`"Україна"` when empty or degenerately short. -/
def sanitize_query (query : String) : String :=
  if query = "" ∨ query = "*" then "Україна"
  else
    let cleaned := blankSpecial query.data
    let cleaned := joinSpace (pySplit cleaned)
    let cleaned :=
      if cleaned.length > 100 then joinSpace ((pySplit cleaned).take 10)
      else cleaned
    if cleaned = [] ∨ (pyStripL cleaned).length < 3 then "Україна"
    else String.mk (pyStripL cleaned)

/-! ### GNews client (`GNewsService.search_news`) -/

/-- A candidate article as returned by the aggregator. -/
structure NewsItem where
  title : String
  description : String
  image : Option String
deriving DecidableEq, Repr

/-- Outcome of one HTTP exchange with the aggregator: a response with a
status code and an optional `articles` payload, or a raised exception
(timeout, connection error, …). -/
inductive GNewsOutcome where
  | resp (status : Nat) (articles : Option (List NewsItem))
  | exn (msg : String)
deriving DecidableEq, Repr

/-- Model of `GNewsService.search_news`: status 200 yields `data.get('articles', [])`;
any other status and any exception yield `[]`. -/
def search_news (outcome : GNewsOutcome) : List NewsItem :=
  match outcome with
  | .resp status articles => if status = 200 then articles.getD [] else []
  | .exn _ => []

/-! ### HTML → Telegram conversion (`html_to_telegram`)

Each `re.sub` of the source is rendered as a left-to-right scan replacing
the leftmost, non-overlapping matches of that pattern; lazy `(.*?)` groups
end at the first occurrence of the closing delimiter, and `[^>]*` runs to
the first `>`. All patterns are replayed on character lists with a fuel
argument bounding the recursion (each step consumes at least one input
character, so `length + 1` fuel is exhaustive). -/

/-- Does the pattern (first argument) begin the list. -/
def startsWithL : List Char → List Char → Bool
  | [], _ => true
  | _ :: _, [] => false
  | p :: ps, c :: cs => p = c && startsWithL ps cs

/-- Index of the first `>` in the list, if any. -/
def findGt : List Char → Option Nat
  | [] => none
  | c :: cs => if c = '>' then some 0 else (findGt cs).map (· + 1)

/-- Split at the first position where the matcher succeeds, returning the
text before the match and the text after the matched span. -/
def splitFirstBy (m : List Char → Option Nat) : List Char → Option (List Char × List Char)
  | [] => match m [] with
      | some _ => some ([], [])
      | none => none
  | c :: cs =>
      match m (c :: cs) with
      | some k => some ([], (c :: cs).drop k)
      | none =>
          match splitFirstBy m cs with
          | some (pre, post) => some (c :: pre, post)
          | none => none

/-- Matcher for a literal pattern. -/
def litMatch (pat : List Char) (cs : List Char) : Option Nat :=
  if startsWithL pat cs then some pat.length else none

/-- A digit `1`–`6`, as in `h[1-6]`. -/
def isHDigit (c : Char) : Bool := 49 ≤ c.toNat && c.toNat ≤ 54

/-- Matcher for `<h[1-6][^>]*>`. -/
def hOpenMatch : List Char → Option Nat
  | '<' :: 'h' :: d :: rest =>
      if isHDigit d then (findGt rest).map fun k => 3 + k + 1 else none
  | _ => none

/-- Matcher for `</h[1-6]>`. -/
def hCloseMatch : List Char → Option Nat
  | '<' :: '/' :: 'h' :: d :: '>' :: _ => if isHDigit d then some 5 else none
  | _ => none

/-- Model of `re.sub(r'<h[1-6][^>]*>(.*?)</h[1-6]>', r'\n\n<b>\1</b>\n\n', s, DOTALL)`. -/
def subHeaders : Nat → List Char → List Char
  | 0, cs => cs
  | _ + 1, [] => []
  | fuel + 1, c :: cs =>
      match hOpenMatch (c :: cs) with
      | some k =>
          match splitFirstBy hCloseMatch ((c :: cs).drop k) with
          | some (content, after) =>
              "\n\n<b>".data ++ content ++ "</b>\n\n".data ++ subHeaders fuel after
          | none => c :: subHeaders fuel cs
      | none => c :: subHeaders fuel cs

/-- Model of `re.sub(open + lazy group + close, pre + group + post, s)` for a literal
opening tag, e.g. `<strong>(.*?)</strong>` → `<b>\1</b>`. -/
def subWrap (openTag closeTag pre post : List Char) : Nat → List Char → List Char
  | 0, cs => cs
  | _ + 1, [] => []
  | fuel + 1, c :: cs =>
      if startsWithL openTag (c :: cs) then
        match splitFirstBy (litMatch closeTag) ((c :: cs).drop openTag.length) with
        | some (content, after) =>
            pre ++ content ++ post ++ subWrap openTag closeTag pre post fuel after
        | none => c :: subWrap openTag closeTag pre post fuel cs
      else c :: subWrap openTag closeTag pre post fuel cs

/-- Matcher for `lead[^>]*>`, e.g. `<li[^>]*>` with lead `"<li"`. -/
def openAttrMatch (lead : List Char) (cs : List Char) : Option Nat :=
  if startsWithL lead cs then
    (findGt (cs.drop lead.length)).map fun k => lead.length + k + 1
  else none

/-- Model of `re.sub(lead[^>]*> + lazy group + close, pre + group + post, s)`,
covering `<li[^>]*>(.*?)</li>` → `\n• \1` and `<p[^>]*>(.*?)</p>` → `\1\n\n`. -/
def subAttrWrap (lead closeTag pre post : List Char) : Nat → List Char → List Char
  | 0, cs => cs
  | _ + 1, [] => []
  | fuel + 1, c :: cs =>
      match openAttrMatch lead (c :: cs) with
      | some k =>
          match splitFirstBy (litMatch closeTag) ((c :: cs).drop k) with
          | some (content, after) =>
              pre ++ content ++ post ++ subAttrWrap lead closeTag pre post fuel after
          | none => c :: subAttrWrap lead closeTag pre post fuel cs
      | none => c :: subAttrWrap lead closeTag pre post fuel cs

/-- Replace every match of the matcher by a constant replacement. -/
def subConst (m : List Char → Option Nat) (repl : List Char) : Nat → List Char → List Char
  | 0, cs => cs
  | _ + 1, [] => []
  | fuel + 1, c :: cs =>
      match m (c :: cs) with
      | some k => repl ++ subConst m repl fuel ((c :: cs).drop k)
      | none => c :: subConst m repl fuel cs

/-- Matcher for `</?NAME[^>]*>` (used with `ul` and `ol`). -/
def tagStripMatch (name : List Char) (cs : List Char) : Option Nat :=
  match cs with
  | '<' :: rest =>
      let (slash, rest') :=
        match rest with
        | '/' :: r => (1, r)
        | _ => (0, rest)
      if startsWithL name rest' then
        (findGt (rest'.drop name.length)).map fun k => 1 + slash + name.length + k + 1
      else none
  | _ => none

/-- Count of leading whitespace characters. -/
def countLeadSpace : List Char → Nat
  | [] => 0
  | c :: cs => if isPySpace c then countLeadSpace cs + 1 else 0

/-- Matcher for `<br\s*/?>`. -/
def brMatch : List Char → Option Nat
  | '<' :: 'b' :: 'r' :: rest =>
      let ws := countLeadSpace rest
      match rest.drop ws with
      | '/' :: '>' :: _ => some (3 + ws + 2)
      | '>' :: _ => some (3 + ws + 1)
      | _ => none
  | _ => none

/-- The tag names Telegram keeps, for the negative lookahead
`(?!/?(b|i|u|s|code|pre|a))`. -/
def allowedTagNames : List (List Char) :=
  [['b'], ['i'], ['u'], ['s'], 'c' :: "ode".data, 'p' :: "re".data, ['a']]

/-- Matcher for `<(?!/?(b|i|u|s|code|pre|a))[^>]+>`: a bracketed span of at
least one non-`>` character whose (optionally `/`-prefixed) body does not
begin with an allowed tag name. -/
def disallowedMatch : List Char → Option Nat
  | '<' :: rest =>
      let rest' :=
        match rest with
        | '/' :: r => r
        | _ => rest
      if allowedTagNames.any fun n => startsWithL n rest' then none
      else
        match findGt rest with
        | some k => if 1 ≤ k then some (1 + k + 1) else none
        | none => none
  | _ => none

/-- Count of leading newline characters. -/
def countLeadNl : List Char → Nat
  | [] => 0
  | c :: cs => if c = '\n' then countLeadNl cs + 1 else 0

/-- Matcher for `\n{3,}` (greedy: the whole newline run). -/
def nlMatch : List Char → Option Nat
  | '\n' :: '\n' :: '\n' :: rest => some (3 + countLeadNl rest)
  | _ => none

/-- Python slice-truncation `s[:max_length-3] + "..."` applied when the
text exceeds `max_length` (a negative slice index counts from the end). -/
def pyTruncate (maxLength : Nat) (cs : List Char) : List Char :=
  if cs.length > maxLength then
    let k : Int := (maxLength : Int) - 3
    let idx : Nat := if 0 ≤ k then k.toNat else ((cs.length : Int) + k).toNat
    cs.take idx ++ "...".data
  else cs

/-- Run one substitution pass with exhaustive fuel. -/
def runSub (f : Nat → List Char → List Char) (cs : List Char) : List Char :=
  f (cs.length + 1) cs

/-- All substitution passes of `html_to_telegram` and the final `strip()`,
before the length cap. -/
def html_to_telegram_body (html : String) : List Char :=
  let cs := html.data
  let cs := runSub subHeaders cs
  let cs := runSub (subWrap "<strong>".data "</strong>".data "<b>".data "</b>".data) cs
  let cs := runSub (subWrap "<em>".data "</em>".data "<i>".data "</i>".data) cs
  let cs := runSub (subConst (tagStripMatch "ul".data) []) cs
  let cs := runSub (subConst (tagStripMatch "ol".data) []) cs
  let cs := runSub (subAttrWrap "<li".data "</li>".data "\n• ".data []) cs
  let cs := runSub (subAttrWrap "<p".data "</p>".data [] "\n\n".data) cs
  let cs := runSub (subConst brMatch "\n".data) cs
  let cs := runSub (subConst disallowedMatch []) cs
  let cs := runSub (subConst nlMatch "\n\n".data) cs
  pyStripL cs

/-- Model of `html_to_telegram(html_content, max_length)`: headings → bold with blank
lines, `strong`→`b`, `em`→`i`, `ul`/`ol` unwrapped, `li` → bullet lines,
`p` → paragraph breaks, `br` → newline, disallowed tags stripped, newline
runs collapsed, stripped, and length-capped with a `...` ellipsis. -/
def html_to_telegram (html : String) (maxLength : Nat) : String :=
  String.mk (pyTruncate maxLength (html_to_telegram_body html))

/-- Does the pattern occur anywhere in the text. -/
def containsSub (pat cs : List Char) : Bool :=
  (splitFirstBy (litMatch pat) cs).isSome

/-! ### Rewriter (`GPTService.generate_article`) -/

/-- The JSON object decoded from the model's completion: each of the five
expected keys may be absent. -/
structure RawArticle where
  title : Option String
  category : Option String
  excerpt : Option String
  content : Option String
  seo_description : Option String
deriving DecidableEq, Repr

/-- A validated article, as the pipeline consumes it. -/
structure Article where
  title : String
  category : String
  excerpt : String
  content : String
  seo_description : String
  category_id : Option Nat
deriving DecidableEq, Repr

/-- Outcome of one external call: a value, or a raised exception. -/
inductive CallResult (α : Type) where
  | ok (val : α)
  | exn (msg : String)
deriving DecidableEq, Repr

/-- Model of `GPTService.generate_article`: an API/parse exception propagates; a
decoded object missing any of the five required fields raises
`Missing required fields in GPT response` (the internal `except` logs and
re-raises, so the caller sees the exception either way). -/
def generate_article (resp : CallResult RawArticle) : CallResult Article :=
  match resp with
  | .exn m => .exn m
  | .ok raw =>
      match raw.title, raw.category, raw.excerpt, raw.content, raw.seo_description with
      | some t, some c, some e, some ct, some s => .ok ⟨t, c, e, ct, s, none⟩
      | _, _, _, _, _ => .exn "Missing required fields in GPT response"

/-! ### Persistent state (`Database`) -/

/-- One row of `user_settings`. -/
structure UserSettings where
  auto_publish_enabled : Bool
  auto_publish_interval : Nat
  auto_publish_to_wp : Bool
  auto_publish_to_tg : Bool
  enabled_categories : List Nat
  last_publish_time : Option Nat
deriving DecidableEq, Repr

/-- The defaults inserted on first access (disabled, 180 min, site only). -/
def defaultSettings : UserSettings := ⟨false, 180, true, false, [], none⟩

/-- One row of `published_articles`. -/
structure PublishedArticle where
  user_id : Nat
  wp_post_id : Option Nat
  tg_message_id : Option Nat
  title : String
  url : Option String
  category_id : Option Nat
  published_to_wp : Bool
  published_to_tg : Bool
deriving DecidableEq, Repr

/-- One row of `logs` (the audit log); the JSON `details` column is not
modelled. -/
structure LogEntry where
  user_id : Nat
  action : String
  status : String
  message : String
deriving DecidableEq, Repr

/-- The tables the pipeline touches. -/
structure DbState where
  categories : List (Nat × String)
  fingerprints : List FingerprintRow
  settings : List (Nat × UserSettings)
  published : List PublishedArticle
  logs : List LogEntry
deriving DecidableEq, Repr

/-- Model of `Database.get_user_settings`: read the row, or insert and return the
defaults when the operator has none yet. -/
def get_user_settings (db : DbState) (uid : Nat) : UserSettings × DbState :=
  match db.settings.find? fun p => p.1 = uid with
  | some p => (p.2, db)
  | none =>
      (defaultSettings, { db with settings := db.settings ++ [(uid, defaultSettings)] })

/-- Model of `Database.get_category_id_by_name`. -/
def get_category_id_by_name (db : DbState) (name : String) : Option Nat :=
  (db.categories.find? fun p => p.2 = name).map (·.1)

/-- Model of `Database.log_action`: append one audit entry. -/
def log_action (db : DbState) (uid : Nat) (action status message : String) : DbState :=
  { db with logs := db.logs ++ [⟨uid, action, status, message⟩] }

/-- Model of `Database.save_published_article`: append one publish record. -/
def save_published_article (db : DbState) (rec : PublishedArticle) : DbState :=
  { db with published := db.published ++ [rec] }

/-- Model of `Database.add_article_fingerprint` lifted to the whole state. -/
def add_fingerprint_db (db : DbState) (title : String) : DbState :=
  { db with fingerprints := add_article_fingerprint db.fingerprints title }

/-- Model of `Database.update_last_publish_time`: `SET last_publish_time = NOW()`. -/
def update_last_publish_time (db : DbState) (uid : Nat) (now : Nat) : DbState :=
  { db with
    settings := db.settings.map fun p =>
      if p.1 = uid then (p.1, { p.2 with last_publish_time := some now }) else p }

/-- Python `category_id not in enabled_cats`, negated: `None` is in no list
of category ids. -/
def optMemCat : Option Nat → List Nat → Bool
  | none, _ => false
  | some c, cats => cats.contains c

/-! ### Scheduled pipeline (`AutoPublishScheduler.auto_publish_task`)

External calls are recorded in an effect trace; their outcomes are supplied
by an environment. Messages to the operator's own chat are `botMessage`
effects and are modelled as always delivered (no claim concerns their
failure). -/

/-- One observable external call. -/
inductive Effect where
  | gnewsSearch (query : String)
  | gptGenerate
  | wpUploadImage
  | wpCreatePost
  | tgSendChannel (text : String)
  | botMessage (chatId : Nat) (text : String)
deriving DecidableEq, Repr

/-- Outcomes of the external calls one scheduled run can make, plus the
database clock used for `NOW()`. -/
structure AutoEnv where
  search1 : GNewsOutcome
  search2 : GNewsOutcome
  gpt : CallResult RawArticle
  imageUpload : CallResult Nat
  wpCreate : CallResult (Nat × String)
  tgSend : CallResult Nat
  now : Nat
deriving Repr

/-- Value of `Config.WP_SITE_URL` (its documented default). -/
def wpSiteUrl : String := "https://spilno.online"

/-- A single-quote character, as a string. -/
def sq : String := String.mk [Char.ofNat 39]

/-- The outer `except Exception` of `auto_publish_task`: log an error entry
and notify the operator. -/
def auto_fail (uid : Nat) (db : DbState) (tr : List Effect) (msg : String) :
    DbState × List Effect :=
  (log_action db uid "auto_publish" "error" msg,
   tr ++ [.botMessage uid ("❌ Помилка автопублікації: " ++ msg)])

/-- Steps of `auto_publish_task` after both destination phases: save the
publish record, register the fingerprint, stamp `last_publish_time`, notify
the operator and append the success audit entry. -/
def auto_publish_finish (env : AutoEnv) (db : DbState) (uid : Nat)
    (settings : UserSettings) (article : Article) (category_id : Option Nat)
    (wp_post_id : Option Nat) (wp_url : Option String) (tg_message_id : Option Nat)
    (tr : List Effect) : DbState × List Effect :=
  let db := save_published_article db
    ⟨uid, wp_post_id, tg_message_id, article.title, wp_url, category_id,
     settings.auto_publish_to_wp, settings.auto_publish_to_tg⟩
  let db := add_fingerprint_db db article.title
  let db := update_last_publish_time db uid env.now
  let result :=
    "✅ **АВТОПУБЛІКАЦІЯ**\n\n📰 " ++ article.title ++ "\n\n" ++
    (match wp_url with
     | some u => "🌐 WordPress: " ++ u ++ "\n"
     | none => "") ++
    (match tg_message_id with
     | some _ => "📱 Telegram: опубліковано\n"
     | none => "")
  let tr := tr ++ [.botMessage uid result]
  let db := log_action db uid "auto_publish" "success"
    ("Auto-published: " ++ article.title)
  (db, tr)

/-- The Telegram phase of `auto_publish_task`: convert the content, append
the backlink when WordPress produced a URL and the fixed footer, send to the
channel; an exception propagates to the outer handler. -/
def auto_publish_tg_phase (env : AutoEnv) (db : DbState) (uid : Nat)
    (settings : UserSettings) (article : Article) (category_id : Option Nat)
    (wp_post_id : Option Nat) (wp_url : Option String) (tr : List Effect) :
    DbState × List Effect :=
  if settings.auto_publish_to_tg then
    let text := html_to_telegram article.content 3800
    let text := text ++
      (match wp_url with
       | some u => "\n\n📰 <b>Читати повністю:</b> " ++ u ++ "\n\n"
       | none => "")
    let text := text ++ "<b>Джерело:</b> <a href=" ++ sq ++ wpSiteUrl ++ sq ++ ">Спільно</a>"
    let tr := tr ++ [.tgSendChannel text]
    match env.tgSend with
    | .exn msg => auto_fail uid db tr msg
    | .ok mid =>
        auto_publish_finish env db uid settings article category_id
          wp_post_id wp_url (some mid) tr
  else
    auto_publish_finish env db uid settings article category_id
      wp_post_id wp_url none tr

/-- The WordPress phase of `auto_publish_task`: create the post when the
destination is enabled; an exception propagates to the outer handler. -/
def auto_publish_wp_phase (env : AutoEnv) (db : DbState) (uid : Nat)
    (settings : UserSettings) (article : Article) (category_id : Option Nat)
    (tr : List Effect) : DbState × List Effect :=
  if settings.auto_publish_to_wp then
    let tr := tr ++ [.wpCreatePost]
    match env.wpCreate with
    | .exn msg => auto_fail uid db tr msg
    | .ok (pid, link) =>
        auto_publish_tg_phase env db uid settings article category_id
          (some pid) (some link) tr
  else
    auto_publish_tg_phase env db uid settings article category_id none none tr

/-- Model of `AutoPublishScheduler.auto_publish_task`: settings gate, candidate
search, keyword-driven source search, rewrite, category filter, duplicate
check, optional cover upload (failure non-fatal), the two destination
phases and persistence; any uncaught exception falls to `auto_fail`. -/
def auto_publish_task (env : AutoEnv) (db : DbState) (uid : Nat) :
    DbState × List Effect :=
  let (settings, db) := get_user_settings db uid
  if ¬ settings.auto_publish_enabled then (db, [])
  else
    let tr := [Effect.gnewsSearch (sanitize_query "Україна")]
    let news := search_news env.search1
    if news = [] then
      (db, tr ++ [.botMessage uid "⚠️ Автопублікація: новини не знайдено"])
    else
      let main_news := news.headD ⟨"", "", none⟩
      let query_words := extract_keywords_from_title main_news.title 5
      let tr := tr ++ [Effect.gnewsSearch (sanitize_query query_words)]
      let tr := tr ++ [Effect.gptGenerate]
      match generate_article env.gpt with
      | .exn msg => auto_fail uid db tr msg
      | .ok article =>
          let category_id := get_category_id_by_name db article.category
          let enabled_cats := settings.enabled_categories
          if enabled_cats ≠ [] ∧ ¬ optMemCat category_id enabled_cats then
            (db, tr ++ [.botMessage uid
              ("⏭️ Статтю пропущено (категорія " ++ sq ++ article.category ++ sq ++ " вимкнена)")])
          else if check_duplicate db.fingerprints article.title then
            (db, tr ++ [.botMessage uid "⏭️ Виявлено дублікат статті"])
          else
            let article := { article with category_id := category_id }
            let tr :=
              match main_news.image with
              | some _ => tr ++ [Effect.wpUploadImage]
              | none => tr
            auto_publish_wp_phase env db uid settings article category_id tr

/-! ### Manual pipeline (`publish_handler`)

The handler publishes the article assembled by the conversational UI to the
destinations named by the pressed button (`wp`, `tg`, `both`). Progress
edits of the operator's own chat message are not modelled. -/

/-- Outcomes of the external calls one manual publish can make. -/
structure ManualEnv where
  imageUpload : CallResult Nat
  wpCreate : CallResult (Nat × String)
  tgSend : CallResult Nat
deriving Repr

/-- The `except Exception` of `publish_handler`: log an error entry and show
the error to the operator. -/
def manual_fail (uid : Nat) (db : DbState) (tr : List Effect) (msg : String) :
    DbState × List Effect :=
  (log_action db uid "publish" "error" msg,
   tr ++ [.botMessage uid ("❌ Помилка публікації:\n\n" ++ msg)])

/-- Steps of `publish_handler` after the destination phases: save the
publish record, register the fingerprint, append the success audit entry and
show the result (no `last_publish_time` update here). -/
def manual_finish (db : DbState) (uid : Nat) (publishType : String)
    (article : Article) (sourcesCount : Nat) (wp_post_id : Option Nat)
    (wp_url : Option String) (tg_message_id : Option Nat) (tr : List Effect) :
    DbState × List Effect :=
  let db := save_published_article db
    ⟨uid, wp_post_id, tg_message_id, article.title, wp_url, article.category_id,
     publishType = "wp" ∨ publishType = "both",
     publishType = "tg" ∨ publishType = "both"⟩
  let db := add_fingerprint_db db article.title
  let db := log_action db uid "publish" "success" ("Published: " ++ article.title)
  let result :=
    "✅ **ОПУБЛІКОВАНО!**\n\n📰 **" ++ article.title ++ "**\n\n" ++
    (match wp_url with
     | some u => "🌐 WordPress: " ++ u ++ "\n"
     | none => "") ++
    (match tg_message_id with
     | some _ => "📱 Telegram: опубліковано\n"
     | none => "") ++
    "\n📁 Категорія: " ++ article.category ++ "\n📊 Джерел: " ++ toString sourcesCount
  (db, tr ++ [.botMessage uid result])

/-- The Telegram phase of `publish_handler`. -/
def manual_tg_phase (env : ManualEnv) (db : DbState) (uid : Nat)
    (publishType : String) (article : Article) (sourcesCount : Nat)
    (wp_post_id : Option Nat) (wp_url : Option String) (tr : List Effect) :
    DbState × List Effect :=
  if publishType = "tg" ∨ publishType = "both" then
    let text := html_to_telegram article.content 3800
    let text := text ++
      (match wp_url with
       | some u => "\n\n📰 <b>Читати повністю:</b> " ++ u ++ "\n\n"
       | none => "")
    let text := text ++ "<b>Джерело:</b> <a href=" ++ sq ++ wpSiteUrl ++ sq ++ ">Спільно</a>"
    let tr := tr ++ [.tgSendChannel text]
    match env.tgSend with
    | .exn msg => manual_fail uid db tr msg
    | .ok mid =>
        manual_finish db uid publishType article sourcesCount
          wp_post_id wp_url (some mid) tr
  else
    manual_finish db uid publishType article sourcesCount wp_post_id wp_url none tr

/-- Model of `publish_handler`: WordPress phase (cover upload failure non-fatal, post
creation failure fatal), Telegram phase, then persistence. There is no
duplicate check on this path. -/
def publish_handler (env : ManualEnv) (db : DbState) (uid : Nat)
    (publishType : String) (article : Article) (hasImage : Bool)
    (sourcesCount : Nat) : DbState × List Effect :=
  if publishType = "wp" ∨ publishType = "both" then
    let tr :=
      if hasImage then [Effect.wpUploadImage] else []
    let tr := tr ++ [Effect.wpCreatePost]
    match env.wpCreate with
    | .exn msg => manual_fail uid db tr msg
    | .ok (pid, link) =>
        manual_tg_phase env db uid publishType article sourcesCount
          (some pid) (some link) tr
  else
    manual_tg_phase env db uid publishType article sourcesCount none none []

/-! ## Helper lemmas -/

theorem title_hash_congr {T1 T2 : String} (h : pyLower T1 = pyLower T2) :
    title_hash T1 = title_hash T2 := by
  unfold title_hash
  rw [h]

theorem add_fingerprint_mem (s : List FingerprintRow) (T : String) :
    ((add_article_fingerprint s T).any fun r => r.hash = title_hash T) = true := by
  unfold add_article_fingerprint
  by_cases h : (s.any fun r => r.hash = title_hash T) = true
  · simp [h]
  · simp [h, List.any_append]

theorem add_fingerprint_noop (s : List FingerprintRow) (T : String)
    (h : (s.any fun r => r.hash = title_hash T) = true) :
    add_article_fingerprint s T = s := by
  unfold add_article_fingerprint
  simp [h]

theorem check_duplicate_add (s : List FingerprintRow) {T1 T2 : String}
    (h : pyLower T1 = pyLower T2) :
    check_duplicate (add_article_fingerprint s T1) T2 = true := by
  unfold check_duplicate
  rw [← title_hash_congr h]
  exact add_fingerprint_mem s T1

/-! ## Claim theorems -/

/-- **C3** — Fingerprint insert idempotence: on the empty store `contains T`
is false; immediately after `add T` it is true, and it stays true and the
store is left untouched by a second `add T`; more generally an `add` whose
digest is already present leaves the store unchanged (and, the operations
being total functions, raises no error). -/
theorem fingerprint_insert_idempotent (T : String) (s : List FingerprintRow) :
    check_duplicate [] T = false ∧
    check_duplicate (add_article_fingerprint s T) T = true ∧
    add_article_fingerprint (add_article_fingerprint s T) T =
      add_article_fingerprint s T ∧
    ((s.any fun r => r.hash = title_hash T) = true →
      add_article_fingerprint s T = s) := by
  refine ⟨rfl, check_duplicate_add s rfl, ?_, add_fingerprint_noop s T⟩
  exact add_fingerprint_noop _ T (add_fingerprint_mem s T)

/-- Witness for **C3** at the concrete title `"Test"` and a store already
holding its digest. -/
theorem fingerprint_insert_idempotent_witness :
    check_duplicate (add_article_fingerprint [] "Test") "Test" = true ∧
    add_article_fingerprint (add_article_fingerprint [] "Test") "Test" =
      add_article_fingerprint [] "Test" :=
  ⟨(fingerprint_insert_idempotent "Test" []).2.1,
   (fingerprint_insert_idempotent "Test" []).2.2.1⟩

set_option maxRecDepth 8000 in
/-- **C4 counterexample** — the code lower-cases but does not trim:
`" A"` and `"a"` are identical after lower-casing and trimming, yet after
`add " A"` the store does not contain `"a"` (their untrimmed lower-cased
digests differ), refuting the claim at this input. -/
theorem fingerprint_trim_counterexample :
    pyStrip (pyLower " A") = pyLower "a" ∧
    check_duplicate (add_article_fingerprint [] " A") "a" = false := by
  constructor
  · decide
  · decide

/-- **C4 (amended)** — Fingerprint normalization is lower-casing only (no
trimming): for all titles `T1`, `T2` identical after lower-casing,
`add T1` followed by `contains T2` returns true. -/
theorem fingerprint_lower_normalization (T1 T2 : String)
    (s : List FingerprintRow) (h : pyLower T1 = pyLower T2) :
    check_duplicate (add_article_fingerprint s T1) T2 = true :=
  check_duplicate_add s h

/-- Witness for **C4 (amended)** at `"NEWS Today"` / `"news today"`. -/
theorem fingerprint_lower_normalization_witness :
    check_duplicate (add_article_fingerprint [] "NEWS Today") "news today" = true :=
  fingerprint_lower_normalization "NEWS Today" "news today" [] (by decide)

/-- **C8** — Derived-query extraction: on the title
`"Економіка, зростає! (на 5%)"` with 5 max tokens the special characters
are blanked, tokens of length ≤ 2 (`на`, `5`) are discarded, and the first
remaining tokens are joined, yielding the two-word query
`"Економіка зростає"` with no punctuation characters; in general the
function returns the default topic `"Україна"` whenever the cleaned result
would be empty or shorter than the minimum length of 3. -/
theorem derived_query_extraction :
    extract_keywords_from_title "Економіка, зростає! (на 5%)" 5 =
      "Економіка зростає" ∧
    (∀ c ∈ "Економіка зростає".data, ¬ specialChars.contains c) ∧
    2 ≤ (pySplit "Економіка зростає".data).length ∧
    (∀ title maxWords, extract_keywords_from_title title maxWords = "Україна" ∨
      3 ≤ (extract_keywords_from_title title maxWords).length) := by
  refine ⟨by decide, by decide, by decide, ?_⟩
  intro title maxWords
  unfold extract_keywords_from_title
  by_cases h0 : title = ""
  · simp [h0]
  · simp only [h0, if_false]
    by_cases h1 :
        joinSpace ((List.filter (fun w => decide (w.length > 2))
            (pySplit (blankSpecial title.data))).take maxWords) = [] ∨
        (pyStripL (joinSpace ((List.filter (fun w => decide (w.length > 2))
            (pySplit (blankSpecial title.data))).take maxWords))).length < 3
    · left
      simp [h1]
    · right
      rw [if_neg h1]
      push_neg at h1
      exact h1.2

theorem pyTruncate_length_le (m : Nat) (hm : 3 ≤ m) (cs : List Char) :
    (pyTruncate m cs).length ≤ m := by
  unfold pyTruncate
  by_cases h : cs.length > m
  · simp only [h, if_true]
    have hk : (0 : Int) ≤ (m : Int) - 3 := by omega
    simp only [hk, if_true]
    have hidx : ((m : Int) - 3).toNat = m - 3 := by omega
    rw [hidx, List.length_append, List.length_take]
    simp only [List.length_cons, List.length_nil]
    omega
  · simp only [h, if_false]
    omega

theorem pyTruncate_ellipsis (m : Nat) (cs : List Char) (h : cs.length > m) :
    "...".data <:+ pyTruncate m cs := by
  unfold pyTruncate
  simp only [h, if_true]
  exact ⟨_, rfl⟩

theorem html_to_telegram_data (html : String) (m : Nat) :
    (html_to_telegram html m).data = pyTruncate m (html_to_telegram_body html) := by
  unfold html_to_telegram
  simp

theorem html_to_telegram_length (html : String) (m : Nat) :
    (html_to_telegram html m).length =
      (pyTruncate m (html_to_telegram_body html)).length := by
  unfold html_to_telegram
  rfl

set_option maxRecDepth 10000 in
set_option maxHeartbeats 2000000 in
theorem html_demo_eq :
    html_to_telegram "<h2>Title</h2><p>Body</p><ul><li>A</li></ul>" 4000 =
      "<b>Title</b>\n\nBody\n\n• A" := by
  decide

set_option maxRecDepth 10000 in
/-- **C9** — Channel-markup conversion: on
`"<h2>Title</h2><p>Body</p><ul><li>A</li></ul>"` the output is exactly
`"<b>Title</b>\n\nBody\n\n• A"` — no `<h2>`, `<ul>` or `<li>` tag remains,
`Title` is wrapped in the channel's `<b>` tag, and `A` sits on a
bullet-prefixed line — and for every input the output's length never
exceeds the `max_length` cap (for any cap ≥ 3, covering the caps 3800/4000
the program uses), with the `"..."` ellipsis as a suffix whenever the
converted content had to be cut. -/
theorem channel_markup_conversion (html : String) (m : Nat) (hm : 3 ≤ m) :
    html_to_telegram "<h2>Title</h2><p>Body</p><ul><li>A</li></ul>" 4000 =
      "<b>Title</b>\n\nBody\n\n• A" ∧
    (containsSub "<h2".data
        (html_to_telegram "<h2>Title</h2><p>Body</p><ul><li>A</li></ul>" 4000).data
          = false ∧
      containsSub "<ul".data
        (html_to_telegram "<h2>Title</h2><p>Body</p><ul><li>A</li></ul>" 4000).data
          = false ∧
      containsSub "<li".data
        (html_to_telegram "<h2>Title</h2><p>Body</p><ul><li>A</li></ul>" 4000).data
          = false) ∧
    (containsSub "<b>Title</b>".data
        (html_to_telegram "<h2>Title</h2><p>Body</p><ul><li>A</li></ul>" 4000).data
          = true ∧
      containsSub "\n• A".data
        (html_to_telegram "<h2>Title</h2><p>Body</p><ul><li>A</li></ul>" 4000).data
          = true) ∧
    (html_to_telegram html m).length ≤ m ∧
    ((html_to_telegram_body html).length > m →
      "...".data <:+ (html_to_telegram html m).data) := by
  refine ⟨html_demo_eq, ⟨?_, ?_, ?_⟩, ⟨?_, ?_⟩, ?_, ?_⟩
  · rw [html_demo_eq]
    decide
  · rw [html_demo_eq]
    decide
  · rw [html_demo_eq]
    decide
  · rw [html_demo_eq]
    decide
  · rw [html_demo_eq]
    decide
  · rw [html_to_telegram_length]
    exact pyTruncate_length_le m hm (html_to_telegram_body html)
  · intro h
    rw [html_to_telegram_data]
    exact pyTruncate_ellipsis m (html_to_telegram_body html) h

/-- Witness for **C9** at a content that must be cut (`"abcdefgh"`, cap 3). -/
theorem channel_markup_conversion_witness :
    (html_to_telegram "abcdefgh" 3).length ≤ 3 ∧
    "...".data <:+ (html_to_telegram "abcdefgh" 3).data :=
  ⟨(channel_markup_conversion "abcdefgh" 3 (by decide)).2.2.2.1,
   (channel_markup_conversion "abcdefgh" 3 (by decide)).2.2.2.2 (by decide)⟩

/-- **C5** — Disabled auto-mode is a no-op: for an operator whose stored
settings have `auto_publish_enabled = false`, the scheduled entry point
returns with the database unchanged and an empty effect trace (no aggregator,
rewriter, site, channel or notification call). -/
theorem disabled_auto_mode_noop (env : AutoEnv) (db : DbState) (uid : Nat)
    (s : UserSettings)
    (hfind : (db.settings.find? fun p => p.1 = uid) = some (uid, s))
    (hdis : s.auto_publish_enabled = false) :
    auto_publish_task env db uid = (db, []) := by
  unfold auto_publish_task get_user_settings
  rw [hfind]
  simp [hdis]

/-- An operator row with auto-publishing disabled, for the C5 witness. -/
def demoSettingsOff : UserSettings := ⟨false, 180, true, false, [], none⟩

/-- A one-operator database, for the C5 witness. -/
def demoDbOff : DbState := ⟨[], [], [(7, demoSettingsOff)], [], []⟩

/-- An environment in which every external service raises, for witnesses:
a run that makes no call cannot fail. -/
def demoEnvDown : AutoEnv :=
  ⟨.exn "down", .exn "down", .exn "down", .exn "down", .exn "down", .exn "down", 0⟩

/-- Witness for **C5** at a concrete disabled operator. -/
theorem disabled_auto_mode_noop_witness :
    auto_publish_task demoEnvDown demoDbOff 7 = (demoDbOff, []) :=
  disabled_auto_mode_noop demoEnvDown demoDbOff 7 demoSettingsOff (by decide) rfl

/-- **C10** — Aggregator search is total at the interface: every exception
and every non-200 response yields `[]`, indistinguishable from a genuinely
empty 200 response; and when the scheduled pipeline's candidate search
raises, the run takes the neutral no-results path — the state is unchanged
(in particular no error audit entry is written) and the only effects are the
search itself and the "no results" notification. -/
theorem aggregator_failure_neutral (env : AutoEnv) (db : DbState) (uid : Nat)
    (s : UserSettings) (m : String)
    (hfind : (db.settings.find? fun p => p.1 = uid) = some (uid, s))
    (hen : s.auto_publish_enabled = true)
    (hfail : env.search1 = .exn m) :
    (∀ msg, search_news (.exn msg) = []) ∧
    (∀ status articles, status ≠ 200 → search_news (.resp status articles) = []) ∧
    search_news (.exn m) = search_news (.resp 200 (some [])) ∧
    auto_publish_task env db uid =
      (db, [.gnewsSearch (sanitize_query "Україна"),
            .botMessage uid "⚠️ Автопублікація: новини не знайдено"]) := by
  refine ⟨fun msg => rfl, ?_, rfl, ?_⟩
  · intro status articles hst
    simp [search_news, hst]
  · unfold auto_publish_task get_user_settings
    rw [hfind]
    simp [hen, hfail, search_news]

/-- An operator row with auto-publishing enabled (site and channel), for
witnesses. -/
def demoSettingsOn : UserSettings := ⟨true, 180, true, true, [], none⟩

/-- A one-operator database with empty fingerprint store and one category,
for witnesses. -/
def demoDbOn : DbState := ⟨[(3, "У світі")], [], [(7, demoSettingsOn)], [], []⟩

/-- Witness for **C10**: with the aggregator down, the run for the enabled
operator ends on the neutral no-results path with the state unchanged. -/
theorem aggregator_failure_neutral_witness :
    auto_publish_task demoEnvDown demoDbOn 7 =
      (demoDbOn, [.gnewsSearch (sanitize_query "Україна"),
                  .botMessage 7 "⚠️ Автопублікація: новини не знайдено"]) :=
  (aggregator_failure_neutral demoEnvDown demoDbOn 7 demoSettingsOn "down"
    (by decide) rfl rfl).2.2.2

/-- The validation predicate of `generate_article`
(`all(field in article_data for field in required)`). -/
def has_required_fields (r : RawArticle) : Bool :=
  r.title.isSome && r.category.isSome && r.excerpt.isSome &&
    r.content.isSome && r.seo_description.isSome

theorem generate_article_missing (raw : RawArticle)
    (h : has_required_fields raw = false) :
    generate_article (.ok raw) = .exn "Missing required fields in GPT response" := by
  rcases raw with ⟨t, c, e, ct, s⟩
  cases t <;> cases c <;> cases e <;> cases ct <;> cases s <;>
    simp_all [generate_article, has_required_fields]

/-- **C7** — Rewriter validation: when the rewriter's decoded response is
missing any of the five required fields, the scheduled run fails hard — the
whole run reduces to appending one error audit entry, the trace carries no
destination call (no site post, no cover upload, no channel send), and the
publish records, fingerprints and settings (hence `last_publish_time`) are
untouched. -/
theorem rewriter_validation_no_writes (env : AutoEnv) (db : DbState) (uid : Nat)
    (s : UserSettings) (raw : RawArticle) (item : NewsItem) (rest : List NewsItem)
    (hfind : (db.settings.find? fun p => p.1 = uid) = some (uid, s))
    (hen : s.auto_publish_enabled = true)
    (hs1 : env.search1 = .resp 200 (some (item :: rest)))
    (hgpt : env.gpt = .ok raw)
    (hmiss : has_required_fields raw = false) :
    auto_publish_task env db uid =
      (log_action db uid "auto_publish" "error"
        "Missing required fields in GPT response",
       [.gnewsSearch (sanitize_query "Україна"),
        .gnewsSearch (sanitize_query (extract_keywords_from_title item.title 5)),
        .gptGenerate,
        .botMessage uid
          ("❌ Помилка автопублікації: " ++ "Missing required fields in GPT response")]) ∧
    (auto_publish_task env db uid).1.published = db.published ∧
    (auto_publish_task env db uid).1.fingerprints = db.fingerprints ∧
    (auto_publish_task env db uid).1.settings = db.settings := by
  have key : auto_publish_task env db uid =
      (log_action db uid "auto_publish" "error"
        "Missing required fields in GPT response",
       [.gnewsSearch (sanitize_query "Україна"),
        .gnewsSearch (sanitize_query (extract_keywords_from_title item.title 5)),
        .gptGenerate,
        .botMessage uid
          ("❌ Помилка автопублікації: " ++ "Missing required fields in GPT response")]) := by
    unfold auto_publish_task get_user_settings auto_fail
    rw [hfind]
    simp [hen, hs1, search_news, hgpt, generate_article_missing raw hmiss]
  refine ⟨key, ?_, ?_, ?_⟩ <;> rw [key] <;> simp [log_action]

/-- A rewriter response whose `content` field is absent, for the C7 witness. -/
def demoRawMissing : RawArticle :=
  ⟨some "Заголовок", some "У світі", some "Опис", none, some "seo"⟩

/-- An environment where both searches answer and the rewriter returns a
response missing a required field, for the C7 witness. -/
def demoEnvMissing : AutoEnv :=
  ⟨.resp 200 (some [⟨"Новини України", "опис", none⟩]), .resp 200 (some []),
   .ok demoRawMissing, .exn "down", .exn "down", .exn "down", 0⟩

/-- Witness for **C7** at a concrete malformed rewriter response. -/
theorem rewriter_validation_no_writes_witness :
    (auto_publish_task demoEnvMissing demoDbOn 7).1.published = [] ∧
    (auto_publish_task demoEnvMissing demoDbOn 7).1.fingerprints = [] :=
  ⟨((rewriter_validation_no_writes demoEnvMissing demoDbOn 7 demoSettingsOn
      demoRawMissing ⟨"Новини України", "опис", none⟩ [] (by decide) rfl rfl rfl
      (by decide)).2.1),
   ((rewriter_validation_no_writes demoEnvMissing demoDbOn 7 demoSettingsOn
      demoRawMissing ⟨"Новини України", "опис", none⟩ [] (by decide) rfl rfl rfl
      (by decide)).2.2.1)⟩

/-- An operator row with category filtering restricted to category 5, for
the C6 counterexample. -/
def demoSettingsCats : UserSettings := ⟨true, 180, true, true, [5], none⟩

/-- A database whose only category (3, `У світі`) is outside the operator's
restricted set, for the C6 counterexample. -/
def demoDbCats : DbState := ⟨[(3, "У світі")], [], [(7, demoSettingsCats)], [], []⟩

/-- A complete rewriter response in category `У світі`. -/
def demoRawFull : RawArticle :=
  ⟨some "Заголовок новини", some "У світі", some "Опис статті тут",
   some "<p>Текст</p>", some "seo"⟩

/-- An environment delivering one candidate and a complete rewrite, for the
C6 counterexample. -/
def demoEnvCats : AutoEnv :=
  ⟨.resp 200 (some [⟨"Новини України", "опис", none⟩]), .resp 200 (some []),
   .ok demoRawFull, .exn "down", .exn "down", .exn "down", 0⟩

set_option maxRecDepth 8000 in
/-- **C6 counterexample** — on a run skipped by the category filter the code
leaves the database completely unchanged: in particular the audit log stays
empty, where the claim demands exactly one entry tagged as skipped. The
trace shows the run did reach the filter (searches and rewrite happened,
the operator got the skip notification, and no destination was called). -/
theorem category_skip_log_counterexample :
    (auto_publish_task demoEnvCats demoDbCats 7).1 = demoDbCats ∧
    (auto_publish_task demoEnvCats demoDbCats 7).1.logs = [] ∧
    (auto_publish_task demoEnvCats demoDbCats 7).2 =
      [.gnewsSearch "Україна", .gnewsSearch "Новини України", .gptGenerate,
       .botMessage 7
         ("⏭️ Статтю пропущено (категорія " ++ sq ++ "У світі" ++ sq ++ " вимкнена)")] :=
  ⟨by decide, by decide, by decide⟩

/-- **C6 (amended)** — Category-filter skip: when filtering is enabled (the
restricted set is non-empty) and the resolved category of the rewritten
article is not in it, the run performs no destination calls and leaves the
database unchanged — so no fingerprint is written, but also no audit log
entry (the code only notifies the operator with a skip message, it does not
log the skip). -/
theorem category_skip_no_writes (env : AutoEnv) (db : DbState) (uid : Nat)
    (s : UserSettings) (art : Article) (item : NewsItem) (rest : List NewsItem)
    (hfind : (db.settings.find? fun p => p.1 = uid) = some (uid, s))
    (hen : s.auto_publish_enabled = true)
    (hs1 : env.search1 = .resp 200 (some (item :: rest)))
    (hgen : generate_article env.gpt = .ok art)
    (hcats : s.enabled_categories ≠ [])
    (hmem : optMemCat (get_category_id_by_name db art.category)
      s.enabled_categories = false) :
    auto_publish_task env db uid =
      (db, [.gnewsSearch (sanitize_query "Україна"),
            .gnewsSearch (sanitize_query (extract_keywords_from_title item.title 5)),
            .gptGenerate,
            .botMessage uid
              ("⏭️ Статтю пропущено (категорія " ++ sq ++ art.category ++ sq ++
                " вимкнена)")]) := by
  unfold auto_publish_task get_user_settings
  rw [hfind]
  simp [hen, hs1, search_news, hgen, hcats, hmem]

/-- Witness for **C6 (amended)** at the concrete filtered run. -/
theorem category_skip_no_writes_witness :
    auto_publish_task demoEnvCats demoDbCats 7 =
      (demoDbCats,
       [.gnewsSearch (sanitize_query "Україна"),
        .gnewsSearch (sanitize_query (extract_keywords_from_title "Новини України" 5)),
        .gptGenerate,
        .botMessage 7
          ("⏭️ Статтю пропущено (категорія " ++ sq ++ "У світі" ++ sq ++
            " вимкнена)")]) :=
  category_skip_no_writes demoEnvCats demoDbCats 7 demoSettingsCats
    ⟨"Заголовок новини", "У світі", "Опис статті тут", "<p>Текст</p>", "seo", none⟩
    ⟨"Новини України", "опис", none⟩ [] (by decide) rfl rfl (by decide)
    (by decide) (by decide)

/-- An environment where the site create succeeds and the channel send
raises, for the C1 counterexample. -/
def demoEnvTgFail : AutoEnv :=
  ⟨.resp 200 (some [⟨"Новини України", "опис", none⟩]), .resp 200 (some []),
   .ok demoRawFull, .exn "down", .ok (42, "https://spilno.online/p/42"),
   .exn "Telegram send failed", 0⟩

set_option maxRecDepth 8000 in
/-- **C1 counterexample** — site phase succeeds (`wpCreatePost` is in the
trace), channel phase raises, and the claim demands a persisted record with
`published_to_site = true`, `published_to_channel = false` plus a registered
fingerprint; the code instead aborts via the outer exception handler:
no publish record, no fingerprint, only an error audit entry. -/
theorem auto_partial_failure_counterexample :
    (auto_publish_task demoEnvTgFail demoDbOn 7).1.published = [] ∧
    (auto_publish_task demoEnvTgFail demoDbOn 7).1.fingerprints = [] ∧
    (auto_publish_task demoEnvTgFail demoDbOn 7).1.logs =
      [⟨7, "auto_publish", "error", "Telegram send failed"⟩] ∧
    Effect.wpCreatePost ∈ (auto_publish_task demoEnvTgFail demoDbOn 7).2 :=
  ⟨by decide, by decide, by decide, by decide⟩

/-- **C1 (amended)** — when the site phase succeeds and the channel phase
raises, the scheduled run aborts through its outer exception handler: no
publish record is persisted, no fingerprint is registered,
`last_publish_time` is not stamped (settings unchanged), and one error
audit entry is appended; the trace confirms the site post was created. -/
theorem auto_channel_failure_aborts_run (env : AutoEnv) (db : DbState)
    (uid pid : Nat) (s : UserSettings) (art : Article) (item : NewsItem)
    (rest : List NewsItem) (link m : String)
    (hfind : (db.settings.find? fun p => p.1 = uid) = some (uid, s))
    (hen : s.auto_publish_enabled = true)
    (hwp : s.auto_publish_to_wp = true)
    (htg : s.auto_publish_to_tg = true)
    (hs1 : env.search1 = .resp 200 (some (item :: rest)))
    (himg : item.image = none)
    (hgen : generate_article env.gpt = .ok art)
    (hcats : s.enabled_categories = [])
    (hdup : check_duplicate db.fingerprints art.title = false)
    (hwpc : env.wpCreate = .ok (pid, link))
    (htgs : env.tgSend = .exn m) :
    (auto_publish_task env db uid).1.published = db.published ∧
    (auto_publish_task env db uid).1.fingerprints = db.fingerprints ∧
    (auto_publish_task env db uid).1.settings = db.settings ∧
    (auto_publish_task env db uid).1.logs =
      db.logs ++ [⟨uid, "auto_publish", "error", m⟩] ∧
    Effect.wpCreatePost ∈ (auto_publish_task env db uid).2 := by
  refine ⟨?_, ?_, ?_, ?_, ?_⟩ <;>
    (unfold auto_publish_task get_user_settings auto_publish_wp_phase
      auto_publish_tg_phase auto_fail log_action
     rw [hfind]
     simp [hen, hwp, htg, hs1, search_news, himg, hgen, hcats, hdup, hwpc, htgs])

/-- Witness for **C1 (amended)** at the concrete site-ok/channel-raise run. -/
theorem auto_channel_failure_aborts_run_witness :
    (auto_publish_task demoEnvTgFail demoDbOn 7).1.published =
      demoDbOn.published ∧
    (auto_publish_task demoEnvTgFail demoDbOn 7).1.fingerprints =
      demoDbOn.fingerprints :=
  ⟨(auto_channel_failure_aborts_run demoEnvTgFail demoDbOn 7 42 demoSettingsOn
      ⟨"Заголовок новини", "У світі", "Опис статті тут", "<p>Текст</p>", "seo", none⟩
      ⟨"Новини України", "опис", none⟩ [] "https://spilno.online/p/42"
      "Telegram send failed" (by decide) rfl rfl rfl rfl rfl (by decide) rfl
      (by decide) rfl rfl).1,
   (auto_channel_failure_aborts_run demoEnvTgFail demoDbOn 7 42 demoSettingsOn
      ⟨"Заголовок новини", "У світі", "Опис статті тут", "<p>Текст</p>", "seo", none⟩
      ⟨"Новини України", "опис", none⟩ [] "https://spilno.online/p/42"
      "Telegram send failed" (by decide) rfl rfl rfl rfl rfl (by decide) rfl
      (by decide) rfl rfl).2.1⟩

/-- A finalized article titled `Test`, for the C2 counterexample. -/
def demoArticle : Article := ⟨"Test", "У світі", "Опис", "<p>Body</p>", "seo", some 3⟩

/-- A manual-publish environment where every destination succeeds. -/
def demoManualEnv : ManualEnv := ⟨.ok 1, .ok (42, "https://spilno.online/p/42"), .ok 5⟩

/-- A database whose fingerprint store already holds the digest of `Test`. -/
def demoDbDup : DbState :=
  ⟨[(3, "У світі")], add_article_fingerprint [] "Test", [(7, demoSettingsOn)], [], []⟩

set_option maxRecDepth 8000 in
/-- **C2 counterexample** — the fingerprint of `Test` is already registered,
yet the manual entry point publishes the article titled `Test` again: it
creates the site post and appends a fresh publish record, because
`publish_handler` performs no duplicate check. -/
theorem manual_duplicate_republish_counterexample :
    check_duplicate demoDbDup.fingerprints "Test" = true ∧
    (publish_handler demoManualEnv demoDbDup 7 "wp" demoArticle false 2).1.published =
      [⟨7, some 42, none, "Test", some "https://spilno.online/p/42", some 3,
        true, false⟩] ∧
    Effect.wpCreatePost ∈
      (publish_handler demoManualEnv demoDbDup 7 "wp" demoArticle false 2).2 :=
  ⟨by decide, by decide, by decide⟩

/-- **C2 (amended)** — Exactly-once per fingerprint holds only for the
scheduled entry point: there the duplicate check on the rewritten title runs
before any destination call and a registered fingerprint makes the run a
pure skip (state unchanged, no destination effects); the manual entry point
performs no duplicate check at all — whatever the fingerprint store
contains, it still creates the site post and appends a publish record. -/
theorem duplicate_check_scheduled_only (env : AutoEnv) (db : DbState)
    (uid : Nat) (s : UserSettings) (art : Article) (item : NewsItem)
    (rest : List NewsItem)
    (hfind : (db.settings.find? fun p => p.1 = uid) = some (uid, s))
    (hen : s.auto_publish_enabled = true)
    (hs1 : env.search1 = .resp 200 (some (item :: rest)))
    (hgen : generate_article env.gpt = .ok art)
    (hcats : s.enabled_categories = [])
    (hdup : check_duplicate db.fingerprints art.title = true) :
    auto_publish_task env db uid =
      (db, [.gnewsSearch (sanitize_query "Україна"),
            .gnewsSearch (sanitize_query (extract_keywords_from_title item.title 5)),
            .gptGenerate,
            .botMessage uid "⏭️ Виявлено дублікат статті"]) ∧
    (∀ (menv : ManualEnv) (mdb : DbState) (muid pid : Nat) (link : String)
        (article : Article) (srcs : Nat),
      menv.wpCreate = .ok (pid, link) →
      (publish_handler menv mdb muid "wp" article false srcs).1.published =
        mdb.published ++ [⟨muid, some pid, none, article.title, some link,
          article.category_id, true, false⟩] ∧
      Effect.wpCreatePost ∈
        (publish_handler menv mdb muid "wp" article false srcs).2) := by
  constructor
  · unfold auto_publish_task get_user_settings
    rw [hfind]
    simp [hen, hs1, search_news, hgen, hcats, hdup]
  · intro menv mdb muid pid link article srcs hwpc
    constructor <;>
      (unfold publish_handler manual_tg_phase manual_finish
        save_published_article add_fingerprint_db log_action
       simp [hwpc])

/-- A rewriter response whose rewritten title `Test` is already
fingerprinted, for the C2 witness. -/
def demoRawTest : RawArticle :=
  ⟨some "Test", some "У світі", some "Опис", some "<p>Body</p>", some "seo"⟩

/-- An environment rewriting to the already-registered title `Test`. -/
def demoEnvTest : AutoEnv :=
  ⟨.resp 200 (some [⟨"Новини України", "опис", none⟩]), .resp 200 (some []),
   .ok demoRawTest, .exn "down", .exn "down", .exn "down", 0⟩

set_option maxRecDepth 8000 in
/-- Witness for **C2 (amended)**: the scheduled run skips the registered
title `Test`, and the manual run publishes it regardless. -/
theorem duplicate_check_scheduled_only_witness :
    auto_publish_task demoEnvTest demoDbDup 7 =
      (demoDbDup,
       [.gnewsSearch (sanitize_query "Україна"),
        .gnewsSearch (sanitize_query (extract_keywords_from_title "Новини України" 5)),
        .gptGenerate,
        .botMessage 7 "⏭️ Виявлено дублікат статті"]) ∧
    (publish_handler demoManualEnv demoDbDup 7 "wp" demoArticle false 2).1.published =
      demoDbDup.published ++ [⟨7, some 42, none, "Test",
        some "https://spilno.online/p/42", some 3, true, false⟩] :=
  ⟨(duplicate_check_scheduled_only demoEnvTest demoDbDup 7 demoSettingsOn
      ⟨"Test", "У світі", "Опис", "<p>Body</p>", "seo", none⟩
      ⟨"Новини України", "опис", none⟩ [] (by decide) rfl rfl (by decide) rfl
      (by decide)).1,
   ((duplicate_check_scheduled_only demoEnvTest demoDbDup 7 demoSettingsOn
      ⟨"Test", "У світі", "Опис", "<p>Body</p>", "seo", none⟩
      ⟨"Новини України", "опис", none⟩ [] (by decide) rfl rfl (by decide) rfl
      (by decide)).2 demoManualEnv demoDbDup 7 42 "https://spilno.online/p/42"
      demoArticle 2 rfl).1⟩

end NewsBot
